import Mathlib

/-!
Verification of the `esrinlutils.utilities` Python module (logging facade,
host forwarding, date conversion, HTTP helper, GIS sign-in helper).

The logging section is embedded as a fuel-indexed interpreter `run` over an
explicit process state `PyState`.  Fuel exhaustion (`val = none`) models a
Python `RecursionError` escaping the call; the interpreter propagates it while
keeping the state and output events produced so far, exactly as an exception
leaves already-performed global mutations in place.

External effects are recorded as `Event`s: records handed to the standard
logging backend, executions of the `import arcpy` statement inside
`logToArcGIS`, and calls to the three ArcGIS output buckets
(`AddError`/`AddWarning`/`AddMessage`).  `datetime.datetime.now()` is
abstracted by a `Clock` of preformatted timestamp strings, and `sys.modules`
by a list of module names carried in the state.
-/

namespace EsriNlUtils

/-- The four logging-backend severities the module configures
(`logging.DEBUG`=10, `logging.INFO`=20, `logging.WARN`=`WARNING`=30,
`logging.ERROR`=40). -/
inductive Level where
  | debug
  | info
  | warning
  | error
deriving DecidableEq, Repr

/-- Numeric value of a level in the Python logging backend. -/
def Level.toNat : Level → Nat
  | .debug => 10
  | .info => 20
  | .warning => 30
  | .error => 40

/-- A sink attached to the process-wide root logger: a `logging.FileHandler`
(with its resolved path) or a `logging.StreamHandler` (console).  Each carries
the minimum level it was given at creation (lines 47-56). -/
inductive Handler where
  | file (path : String) (lvl : Level)
  | stream (lvl : Level)
deriving DecidableEq, Repr

/-- Whether a handler is the console (`StreamHandler`) sink. -/
def Handler.isStream : Handler → Bool
  | .stream _ => true
  | .file _ _ => false

/-- Observable effects of the logging code: a record handed to the logging
backend, an execution of the `import arcpy` statement (line 171), and the
three ArcGIS output-window buckets `arcpy.AddError` / `arcpy.AddWarning` /
`arcpy.AddMessage` (lines 177-182). -/
inductive Event where
  | backend (lvl : Level) (msg : String)
  | arcpyLoad
  | hostError (line : String)
  | hostWarning (line : String)
  | hostMessage (line : String)
deriving DecidableEq, Repr

/-- Events that reach one of the three ArcGIS host buckets. -/
def Event.isHost : Event → Bool
  | .hostError _ => true
  | .hostWarning _ => true
  | .hostMessage _ => true
  | _ => false

/-- The host-bucket calls contained in an event trace, in order. -/
def hostCalls (l : List Event) : List Event := l.filter Event.isHost

/-- Process-wide state of the module: the root logger's handler list and
level (the root `logging.Logger` object persists even after `_logger` is
cleared), whether the module-global `_logger` is set (`_logger is not None`),
the module-global `_logToArcGIS` flag, and `sys.modules`. -/
structure PyState where
  rootHandlers : List Handler
  rootLevel : Level
  hasLogger : Bool
  arcFlag : Bool
  sysModules : List String
deriving DecidableEq, Repr

/-- Timestamps: `datetime.datetime.now()` abstracted as preformatted strings: `nowLine`
is `strftime("%Y%m%d-%H:%M:%S")` (line 174), `nowFile` is
`strftime("%Y%m%d-%H%M%S")` (line 46). -/
structure Clock where
  nowLine : String
  nowFile : String
deriving DecidableEq, Repr

/-- Result of running a piece of the logging code: the state afterwards, the
events emitted so far, and `none` when the call died with a `RecursionError`
(fuel exhausted) instead of returning.  The boolean payload is the returned
value where one exists (`checkModuleImport`); other calls return `true`. -/
structure Out where
  st : PyState
  ev : List Event
  val : Option Bool
deriving DecidableEq, Repr

/-- Sequencing: if the first computation raised, the exception propagates with
the state and events it left behind; otherwise continue from its state and
append the events. -/
def Out.seq (r : Out) (k : PyState → Bool → Out) : Out :=
  match r.val with
  | none => r
  | some b =>
    let r2 := k r.st b
    ⟨r2.st, r.ev ++ r2.ev, r2.val⟩

/-- Python `logger.isEnabledFor(lvl)`: the call's level is at least the logger's
effective level. -/
def PyState.isEnabledFor (s : PyState) (lvl : Level) : Bool :=
  s.rootLevel.toNat ≤ lvl.toNat

/-- The names `dir()` returns inside `checkModuleImport` at line 199: the
function's local variables (sorted), never the probed module. -/
def localNames : List String := ["moduleImported", "moduleName"]

/-- The host-forward line format of line 174:
`timestamp - level - message`. -/
def fullLine (clk : Clock) (lvl msg : String) : String :=
  clk.nowLine ++ " - " ++ lvl ++ " - " ++ msg

/-- The calls of the logging section, so that the mutually recursive Python
functions become one fuel-indexed interpreter. -/
inductive Call where
  | configureC (path : Option String) (toArc : Bool) (lvl : Level)
  | getLoggerC
  | logExceptionC (exc msg : String)
  | logErrorC (msg : String)
  | logWarningC (msg : String)
  | logInfoC (msg : String)
  | logDebugC (msg : String)
  | logToArc (msg lvl : String)
  | checkModule (moduleName : String)
deriving DecidableEq, Repr

/-- Interpreter for the logging section of `utilities.py` (lines 21-203).
Each constructor of `Call` mirrors one Python function; nested calls run on
one unit less fuel, so `val = none` for every fuel is genuine divergence
(Python's `RecursionError`).

* `configureC` (lines 21-62): set `_logToArcGIS`, bind `_logger` to the root
  logger, attach a file handler when the path is truthy (with `[date]`
  substitution), attach a console handler iff not forwarding, set the level,
  then `logInfo` the announcement line.
* `getLoggerC` (lines 80-89): auto-configure with `configureLogging(None)`
  (defaults `logToArcGIS=False`, `level="DEBUG"`) when `_logger` is unset.
* `logExceptionC` (lines 91-103): `logger.exception(message)` logs a backend
  record at ERROR (subject to the backend's own level check), then forwards
  message and exception with tag `"FATAL"`.
* `logErrorC`/`logWarningC`/`logInfoC`/`logDebugC` (lines 105-155): when
  `isEnabledFor` permits, emit the backend record and forward with tags
  `"ERROR"`/`"WARN"`/`"INFO"`/`"DEBUG"`; otherwise do nothing.
* `logToArc` (lines 157-182): no-op unless `_logToArcGIS`; otherwise call
  `checkModuleImport("arcpy")`, run the `import arcpy` statement when it
  answers false, format the line, and route it to exactly one bucket:
  `AddError` for `"ERROR"`/`"FATAL"`, `AddWarning` for `"WARN"`, else
  `AddMessage`.
* `checkModule` (lines 184-203): `logDebug` a start line, test
  `moduleName in sys.modules and moduleName in dir()`, `logDebug` an end
  line, return the result. -/
def run : Nat → PyState → Clock → Call → Out
  | 0, s, _, _ => ⟨s, [], none⟩
  | Nat.succ n, s, clk, c =>
    match c with
    | .configureC path toArc lvl =>
      let s1 : PyState := { s with arcFlag := toArc, hasLogger := true }
      let fileStep : PyState × String :=
        match path with
        | some p =>
          if p = "" then (s1, p)
          else
            let p2 := p.replace "[date]" clk.nowFile
            ({ s1 with rootHandlers := s1.rootHandlers ++ [Handler.file p2 lvl] }, p2)
        | none => (s1, "None")
      let s3 : PyState :=
        if toArc then fileStep.1
        else { fileStep.1 with rootHandlers := fileStep.1.rootHandlers ++ [Handler.stream lvl] }
      let s4 : PyState := { s3 with rootLevel := lvl }
      run n s4 clk (.logInfoC ("Logging Created, logfile: " ++ fileStep.2))
    | .getLoggerC =>
      if s.hasLogger then ⟨s, [], some true⟩
      else run n s clk (.configureC none false Level.debug)
    | .logExceptionC exc msg =>
      (run n s clk .getLoggerC).seq fun s1 _ =>
        let e1 : List Event :=
          if s1.isEnabledFor Level.error then [Event.backend Level.error msg] else []
        (Out.mk s1 e1 (some true)).seq fun s2 _ =>
          (run n s2 clk (.logToArc msg "FATAL")).seq fun s3 _ =>
            run n s3 clk (.logToArc exc "FATAL")
    | .logErrorC msg =>
      (run n s clk .getLoggerC).seq fun s1 _ =>
        if s1.isEnabledFor Level.error then
          (run n s1 clk .getLoggerC).seq fun s2 _ =>
            (Out.mk s2 [Event.backend Level.error msg] (some true)).seq fun s3 _ =>
              run n s3 clk (.logToArc msg "ERROR")
        else ⟨s1, [], some true⟩
    | .logWarningC msg =>
      (run n s clk .getLoggerC).seq fun s1 _ =>
        if s1.isEnabledFor Level.warning then
          (run n s1 clk .getLoggerC).seq fun s2 _ =>
            (Out.mk s2 [Event.backend Level.warning msg] (some true)).seq fun s3 _ =>
              run n s3 clk (.logToArc msg "WARN")
        else ⟨s1, [], some true⟩
    | .logInfoC msg =>
      (run n s clk .getLoggerC).seq fun s1 _ =>
        if s1.isEnabledFor Level.info then
          (run n s1 clk .getLoggerC).seq fun s2 _ =>
            (Out.mk s2 [Event.backend Level.info msg] (some true)).seq fun s3 _ =>
              run n s3 clk (.logToArc msg "INFO")
        else ⟨s1, [], some true⟩
    | .logDebugC msg =>
      (run n s clk .getLoggerC).seq fun s1 _ =>
        if s1.isEnabledFor Level.debug then
          (run n s1 clk .getLoggerC).seq fun s2 _ =>
            (Out.mk s2 [Event.backend Level.debug msg] (some true)).seq fun s3 _ =>
              run n s3 clk (.logToArc msg "DEBUG")
        else ⟨s1, [], some true⟩
    | .logToArc msg lvl =>
      if s.arcFlag then
        (run n s clk (.checkModule "arcpy")).seq fun s1 imported =>
          let importStep : PyState × List Event :=
            if imported then (s1, [])
            else
              ({ s1 with sysModules :=
                   if s1.sysModules.contains "arcpy" then s1.sysModules
                   else s1.sysModules ++ ["arcpy"] },
               [Event.arcpyLoad])
          let hc : Event :=
            if lvl = "ERROR" ∨ lvl = "FATAL" then Event.hostError (fullLine clk lvl msg)
            else if lvl = "WARN" then Event.hostWarning (fullLine clk lvl msg)
            else Event.hostMessage (fullLine clk lvl msg)
          ⟨importStep.1, importStep.2 ++ [hc], some true⟩
      else ⟨s, [], some true⟩
    | .checkModule moduleName =>
      (run n s clk (.logDebugC ("utilities::checkModuleImport::Start::" ++ moduleName))).seq
        fun s1 _ =>
          let moduleImported := s1.sysModules.contains moduleName && localNames.contains moduleName
          (run n s1 clk (.logDebugC ("utilities::checkModuleImport::End::" ++ moduleName))).seq
            fun s2 _ => ⟨s2, [], some moduleImported⟩

/-- Python `configureLogging(logFilePath, logToArcGIS, level)` (lines 21-62). -/
def configureLogging (n : Nat) (s : PyState) (clk : Clock)
    (path : Option String) (toArc : Bool) (lvl : Level) : Out :=
  run n s clk (.configureC path toArc lvl)

/-- Python `resetLogging()` (lines 64-78): when a logger is present, pop each handler
from the front, detach and close it (so the second component lists the closed
sinks in attachment order), then clear `_logger`; otherwise do nothing. -/
def resetLogging (s : PyState) : PyState × List Handler :=
  if s.hasLogger then
    ({ s with rootHandlers := [], hasLogger := false }, s.rootHandlers)
  else (s, [])

/-- Python `getLogger()` (lines 80-89). -/
def getLogger (n : Nat) (s : PyState) (clk : Clock) : Out :=
  run n s clk .getLoggerC

/-- Python `logException(exception, message)` (lines 91-103). -/
def logException (n : Nat) (s : PyState) (clk : Clock) (exc msg : String) : Out :=
  run n s clk (.logExceptionC exc msg)

/-- Python `logError(message)` (lines 105-116). -/
def logError (n : Nat) (s : PyState) (clk : Clock) (msg : String) : Out :=
  run n s clk (.logErrorC msg)

/-- Python `logWarning(message)` (lines 118-129). -/
def logWarning (n : Nat) (s : PyState) (clk : Clock) (msg : String) : Out :=
  run n s clk (.logWarningC msg)

/-- Python `logInfo(message)` (lines 131-142). -/
def logInfo (n : Nat) (s : PyState) (clk : Clock) (msg : String) : Out :=
  run n s clk (.logInfoC msg)

/-- Python `logDebug(message)` (lines 144-155). -/
def logDebug (n : Nat) (s : PyState) (clk : Clock) (msg : String) : Out :=
  run n s clk (.logDebugC msg)

/-- Python `logToArcGIS(message, level)` (lines 157-182). -/
def logToArcGIS (n : Nat) (s : PyState) (clk : Clock) (msg lvl : String) : Out :=
  run n s clk (.logToArc msg lvl)

/-- Python `checkModuleImport(moduleName)` (lines 184-203). -/
def checkModuleImport (n : Nat) (s : PyState) (clk : Clock) (moduleName : String) : Out :=
  run n s clk (.checkModule moduleName)

/-- A fixed clock for concrete evaluations. -/
def clk0 : Clock := ⟨"20220101-00:00:00", "20220101-000000"⟩

/-- State with host forwarding on and threshold DEBUG: the configuration on
which every permitted log call recurses without bound. -/
def sBad : PyState := ⟨[], Level.debug, true, true, ["arcpy"]⟩

/-- State with host forwarding on and threshold INFO. -/
def sInfoT : PyState := ⟨[], Level.info, true, true, []⟩

/-- State with host forwarding on and threshold ERROR. -/
def sErrT : PyState := ⟨[], Level.error, true, true, []⟩

end EsriNlUtils


namespace EsriNlUtils

/-! ## Date conversion helpers (lines 317-366)

`datetime` is modelled arithmetically: a timestamp is an exact integer (the
floats involved are below 2^53, so Python's float arithmetic is exact and
`round` is the identity on them), the local timezone is an explicit offset
`tz` in seconds (`datetime.timestamp` subtracts it from the naive local time,
`datetime.fromtimestamp` adds it back), and the civil calendar is the
proleptic Gregorian via the standard days-from-civil / civil-from-days
algorithms.  The caller-supplied format string is instantiated at the
module's default `"%Y/%m/%d"`, the format every claim uses. -/

/-- Decimal digit count of a natural number, fuel-based so it is structural
(the fuel `n + 1` used by `digitsLen` always suffices because the argument
shrinks by a factor of ten each step). -/
def digitsLenGo : Nat → Nat → Nat
  | 0, _ => 0
  | Nat.succ f, n => if n < 10 then 1 else digitsLenGo f (n / 10) + 1

/-- Number of decimal digits of a natural number. -/
def digitsLen (n : Nat) : Nat := digitsLenGo (n + 1) n

/-- Python `len(str(timestamp))` for an int: the digit count, plus one for the
minus sign when negative (line 356 counts the sign too). -/
def pyStrLen (i : Int) : Nat :=
  if i < 0 then digitsLen i.natAbs + 1 else digitsLen i.natAbs

/-- Days since 1970-01-01 of a proleptic-Gregorian date. -/
def daysFromCivil (y m d : Int) : Int :=
  let y2 := if m ≤ 2 then y - 1 else y
  let era := Int.fdiv y2 400
  let yoe := y2 - era * 400
  let mp := Int.emod (m + 9) 12
  let doy := Int.fdiv (153 * mp + 2) 5 + d - 1
  let doe := yoe * 365 + Int.fdiv yoe 4 - Int.fdiv yoe 100 + doy
  era * 146097 + doe - 719468

/-- Proleptic-Gregorian date `(year, month, day)` of a count of days since
1970-01-01. -/
def civilFromDays (z0 : Int) : Int × Int × Int :=
  let z := z0 + 719468
  let era := Int.fdiv z 146097
  let doe := z - era * 146097
  let yoe := Int.fdiv (doe - Int.fdiv doe 1460 + Int.fdiv doe 36524 - Int.fdiv doe 146096) 365
  let y := yoe + era * 400
  let doy := doe - (365 * yoe + Int.fdiv yoe 4 - Int.fdiv yoe 100)
  let mp := Int.fdiv (5 * doy + 2) 153
  let d := doy - Int.fdiv (153 * mp + 2) 5 + 1
  let m := mp + (if mp < 10 then 3 else -9)
  (if m ≤ 2 then y + 1 else y, m, d)

/-- Read a run of decimal digits (helper for the `%Y`/`%m`/`%d` fields). -/
def readNatGo : List Char → Nat → Option Nat
  | [], acc => some acc
  | c :: cs, acc => if c.isDigit then readNatGo cs (acc * 10 + (c.toNat - 48)) else none

/-- Read a nonempty all-digit field as a number. -/
def readNat (cs : List Char) : Option Nat :=
  match cs with
  | [] => none
  | _ => readNatGo cs 0

/-- Split a character list on the slashes (helper for the `"%Y/%m/%d"`
pattern). -/
def splitSlashGo : List Char → List Char → List (List Char)
  | [], cur => [cur.reverse]
  | c :: cs, cur =>
    if c = '/' then cur.reverse :: splitSlashGo cs [] else splitSlashGo cs (c :: cur)

/-- Python `datetime.datetime.strptime(dateString, "%Y/%m/%d")`: three slash-separated
decimal fields, month and day range-checked as `strptime` and the `datetime`
constructor do.  (The model accepts day 1-31 in every month; the claims'
concrete dates are valid either way.) -/
def strptimeYMD (s : String) : Option (Int × Int × Int) :=
  match splitSlashGo s.toList [] with
  | [ys, ms, ds] =>
    match readNat ys, readNat ms, readNat ds with
    | some y, some m, some d =>
      if 1 ≤ m ∧ m ≤ 12 ∧ 1 ≤ d ∧ d ≤ 31 then some ((y : Int), (m : Int), (d : Int))
      else none
    | _, _, _ => none
  | _ => none

/-- Zero-pad to two digits, as `%m` and `%d` do. -/
def pad2 (n : Int) : String := if n < 10 then "0" ++ toString n else toString n

/-- Python `datetime.strftime(element, "%Y/%m/%d")` on a date triple. -/
def strftimeYMD : Int × Int × Int → String
  | (y, m, d) => toString y ++ "/" ++ pad2 m ++ "/" ++ pad2 d

/-- Python `dateStringToTimestamp(dateString, "%Y/%m/%d", returnInMilliseconds)`
(lines 317-341): parse the date, take the epoch timestamp of local midnight
(`tz` is the local UTC offset in seconds), scale to milliseconds when asked.
The values are integral, so line 341's `round` is the identity. -/
def dateStringToTimestamp (dateString : String) (returnInMilliseconds : Bool)
    (tz : Int) : Option Int :=
  (strptimeYMD dateString).map fun ymd =>
    let timestamp := daysFromCivil ymd.1 ymd.2.1 ymd.2.2 * 86400 - tz
    if returnInMilliseconds then timestamp * 1000 else timestamp

/-- Python `timestampToDateString(timestamp, "%Y/%m/%d")` (lines 343-366): when the
decimal string of the input is longer than 10 characters, line 357 divides by
1000; `datetime.fromtimestamp` then yields the local calendar date (offset
`tz` seconds) which `%Y/%m/%d` formats.  The two steps are fused exactly:
`floor((t/1000 + tz)/86400) = floor((t + 1000*tz)/86400000)`. -/
def timestampToDateString (timestamp : Int) (tz : Int) : String :=
  let days :=
    if 10 < pyStrLen timestamp then Int.fdiv (timestamp + 1000 * tz) 86400000
    else Int.fdiv (timestamp + tz) 86400
  strftimeYMD (civilFromDays days)

/-! ## HTTP request helper (lines 205-234) -/

/-- The two HTTP verbs the helpers can issue. -/
inductive HttpMethod where
  | get
  | post
deriving DecidableEq, Repr

/-- The request-method selection of `sendRequest` (lines 219-224):
`requests.get` exactly when `type == "GET"`, every other value of `type`
falls into the `else` branch and issues `requests.post`. -/
def sendRequest (type : String) : HttpMethod :=
  if type = "GET" then HttpMethod.get else HttpMethod.post

/-! ## GIS sign-in helper `getGIS` (lines 265-315)

The external `arcgis` SDK is abstracted: the profile store is a list of
profile names and the overall outcome of the SDK sign-in calls inside the
`try` block is an `Except` parameter (`ok` with the session, or `error` with
the raised exception's text).  The logging facade is recorded here as
abstract, non-raising trace events; the facade's own recursion defect is
treated with the logging claims. -/

/-- Trace events of `getGIS`: facade calls, the `getpass` prompt, and profile
creation. -/
inductive GEvent where
  | gDebug (s : String)
  | gInfo (s : String)
  | gPasswordPrompt
  | gProfileCreated (profileName : String)
  | gException (exc msg : String)
deriving DecidableEq, Repr

/-- Environment of a `getGIS` call: the persisted credential-profile names,
and the outcome of the SDK session acquisition. -/
structure GisEnv where
  profiles : List String
  outcome : Except String String

/-- The message `getGIS` passes to `logException` at line 309. -/
def getGISfailMessage : String :=
  "The GIS object could not be created. You either need to be signed in with ArcGIS Pro or provide a portal username"

/-- Python `getGIS(portalUsername, portalUrl)` (lines 265-315): the profile branch
builds `arcgis_<username>`, prompting for a password and creating the profile
when absent; any exception from the session acquisition is caught, logged
with `logException` and the fixed message, and turned into a `None` return. -/
def getGIS (portalUsername : Option String) (env : GisEnv) :
    Option String × List GEvent :=
  let startEv := [GEvent.gDebug "utilities::getGIS::Start"]
  let branchEv :=
    match portalUsername with
    | some u =>
      let profileName := "arcgis_" ++ u
      [GEvent.gInfo ("Signing in using profile, for user " ++ u)] ++
        (if env.profiles.contains profileName then []
         else [GEvent.gPasswordPrompt, GEvent.gProfileCreated profileName,
               GEvent.gInfo ("Created new profile for user: " ++ u)])
    | none => [GEvent.gInfo "Signing in using ArcGIS Pro"]
  match env.outcome with
  | Except.ok gis =>
    (some gis,
     startEv ++ branchEv ++
       [GEvent.gInfo "Successfully signed in", GEvent.gDebug "utilities::getGIS::End"])
  | Except.error ex =>
    (none,
     startEv ++ branchEv ++
       [GEvent.gException ex getGISfailMessage, GEvent.gDebug "utilities::getGIS::End"])

/-- A state whose logger holds a file sink (for the reset witness). -/
def sWithFile : PyState := ⟨[Handler.file "log.txt" Level.info], Level.info, true, false, []⟩

/-- A state with no logger handle (for the reset no-op witness). -/
def sNoLogger : PyState := ⟨[], Level.warning, false, false, []⟩

/-- A failing `getGIS` environment (for the witness). -/
def gisEnvFail : GisEnv := ⟨[], Except.error "boom"⟩

/-- State `t` has the same handler list as `s` and the logger handle set: the
invariant every non-configure logging call maintains. -/
def KeepsHandlers (s t : PyState) : Prop :=
  t.rootHandlers = s.rootHandlers ∧ t.hasLogger = true

end EsriNlUtils


namespace EsriNlUtils

/-! ## Interpreter lemmas

The step lemmas restate one unfolding of `run` per call constructor (each is
`rfl`), so proofs can unfold a single call without `simp [run]` rewriting the
nested calls underneath it. -/

theorem seq_none {r : Out} (k : PyState → Bool → Out) (h : r.val = none) :
    r.seq k = r := by
  simp [Out.seq, h]

@[simp] theorem seq_mk_some (s : PyState) (ev : List Event) (b : Bool)
    (k : PyState → Bool → Out) :
    (Out.mk s ev (some b)).seq k = ⟨(k s b).st, ev ++ (k s b).ev, (k s b).val⟩ := rfl

@[simp] theorem run_zero (s : PyState) (clk : Clock) (c : Call) :
    run 0 s clk c = ⟨s, [], none⟩ := rfl

theorem run_step_getLogger (n : Nat) (s : PyState) (clk : Clock) :
    run (n + 1) s clk Call.getLoggerC =
      (if s.hasLogger then ⟨s, [], some true⟩
       else run n s clk (.configureC none false Level.debug)) := rfl

theorem run_step_configure (n : Nat) (s : PyState) (clk : Clock)
    (path : Option String) (toArc : Bool) (lvl : Level) :
    run (n + 1) s clk (Call.configureC path toArc lvl) =
      (let s1 : PyState := { s with arcFlag := toArc, hasLogger := true }
       let fileStep : PyState × String :=
         match path with
         | some p =>
           if p = "" then (s1, p)
           else
             let p2 := p.replace "[date]" clk.nowFile
             ({ s1 with rootHandlers := s1.rootHandlers ++ [Handler.file p2 lvl] }, p2)
         | none => (s1, "None")
       let s3 : PyState :=
         if toArc then fileStep.1
         else { fileStep.1 with rootHandlers := fileStep.1.rootHandlers ++ [Handler.stream lvl] }
       let s4 : PyState := { s3 with rootLevel := lvl }
       run n s4 clk (.logInfoC ("Logging Created, logfile: " ++ fileStep.2))) := rfl

theorem run_step_logException (n : Nat) (s : PyState) (clk : Clock) (exc msg : String) :
    run (n + 1) s clk (Call.logExceptionC exc msg) =
      ((run n s clk .getLoggerC).seq fun s1 _ =>
        let e1 : List Event :=
          if s1.isEnabledFor Level.error then [Event.backend Level.error msg] else []
        (Out.mk s1 e1 (some true)).seq fun s2 _ =>
          (run n s2 clk (.logToArc msg "FATAL")).seq fun s3 _ =>
            run n s3 clk (.logToArc exc "FATAL")) := rfl

theorem run_step_logError (n : Nat) (s : PyState) (clk : Clock) (msg : String) :
    run (n + 1) s clk (Call.logErrorC msg) =
      ((run n s clk .getLoggerC).seq fun s1 _ =>
        if s1.isEnabledFor Level.error then
          (run n s1 clk .getLoggerC).seq fun s2 _ =>
            (Out.mk s2 [Event.backend Level.error msg] (some true)).seq fun s3 _ =>
              run n s3 clk (.logToArc msg "ERROR")
        else ⟨s1, [], some true⟩) := rfl

theorem run_step_logWarning (n : Nat) (s : PyState) (clk : Clock) (msg : String) :
    run (n + 1) s clk (Call.logWarningC msg) =
      ((run n s clk .getLoggerC).seq fun s1 _ =>
        if s1.isEnabledFor Level.warning then
          (run n s1 clk .getLoggerC).seq fun s2 _ =>
            (Out.mk s2 [Event.backend Level.warning msg] (some true)).seq fun s3 _ =>
              run n s3 clk (.logToArc msg "WARN")
        else ⟨s1, [], some true⟩) := rfl

theorem run_step_logInfo (n : Nat) (s : PyState) (clk : Clock) (msg : String) :
    run (n + 1) s clk (Call.logInfoC msg) =
      ((run n s clk .getLoggerC).seq fun s1 _ =>
        if s1.isEnabledFor Level.info then
          (run n s1 clk .getLoggerC).seq fun s2 _ =>
            (Out.mk s2 [Event.backend Level.info msg] (some true)).seq fun s3 _ =>
              run n s3 clk (.logToArc msg "INFO")
        else ⟨s1, [], some true⟩) := rfl

theorem run_step_logDebug (n : Nat) (s : PyState) (clk : Clock) (msg : String) :
    run (n + 1) s clk (Call.logDebugC msg) =
      ((run n s clk .getLoggerC).seq fun s1 _ =>
        if s1.isEnabledFor Level.debug then
          (run n s1 clk .getLoggerC).seq fun s2 _ =>
            (Out.mk s2 [Event.backend Level.debug msg] (some true)).seq fun s3 _ =>
              run n s3 clk (.logToArc msg "DEBUG")
        else ⟨s1, [], some true⟩) := rfl

theorem run_step_logToArc (n : Nat) (s : PyState) (clk : Clock) (msg lvl : String) :
    run (n + 1) s clk (Call.logToArc msg lvl) =
      (if s.arcFlag then
        (run n s clk (.checkModule "arcpy")).seq fun s1 imported =>
          let importStep : PyState × List Event :=
            if imported then (s1, [])
            else
              ({ s1 with sysModules :=
                   if s1.sysModules.contains "arcpy" then s1.sysModules
                   else s1.sysModules ++ ["arcpy"] },
               [Event.arcpyLoad])
          let hc : Event :=
            if lvl = "ERROR" ∨ lvl = "FATAL" then Event.hostError (fullLine clk lvl msg)
            else if lvl = "WARN" then Event.hostWarning (fullLine clk lvl msg)
            else Event.hostMessage (fullLine clk lvl msg)
          ⟨importStep.1, importStep.2 ++ [hc], some true⟩
      else ⟨s, [], some true⟩) := rfl

theorem run_step_checkModule (n : Nat) (s : PyState) (clk : Clock) (moduleName : String) :
    run (n + 1) s clk (Call.checkModule moduleName) =
      ((run n s clk (.logDebugC ("utilities::checkModuleImport::Start::" ++ moduleName))).seq
        fun s1 _ =>
          let moduleImported := s1.sysModules.contains moduleName && localNames.contains moduleName
          (run n s1 clk (.logDebugC ("utilities::checkModuleImport::End::" ++ moduleName))).seq
            fun s2 _ => ⟨s2, [], some moduleImported⟩) := rfl

theorem run_getLogger_succ {s : PyState} (h : s.hasLogger = true) (n : Nat) (clk : Clock) :
    run (n + 1) s clk Call.getLoggerC = ⟨s, [], some true⟩ := by
  rw [run_step_getLogger, if_pos h]

theorem isEnabledFor_of_debug {s : PyState} (h : s.rootLevel = Level.debug) (lvl : Level) :
    s.isEnabledFor lvl = true := by
  cases lvl <;> simp [PyState.isEnabledFor, h, Level.toNat]

theorem isEnabledFor_debug_false {s : PyState} (h : s.rootLevel ≠ Level.debug) :
    s.isEnabledFor Level.debug = false := by
  cases hl : s.rootLevel <;> simp_all [PyState.isEnabledFor, Level.toNat]

/-- With host forwarding on, threshold DEBUG and a logger present,
`logToArcGIS`, `checkModuleImport` and `logDebug` never return: the cycle
`logToArcGIS → checkModuleImport → logDebug → logToArcGIS` consumes every
amount of fuel, leaving the state unchanged. -/
theorem run_bad (n : Nat) : ∀ (s : PyState) (clk : Clock) (msg lvl nm : String),
    s.arcFlag = true → s.rootLevel = Level.debug → s.hasLogger = true →
    ((run n s clk (Call.logToArc msg lvl)).st = s
       ∧ (run n s clk (Call.logToArc msg lvl)).val = none)
    ∧ ((run n s clk (Call.checkModule nm)).st = s
       ∧ (run n s clk (Call.checkModule nm)).val = none)
    ∧ ((run n s clk (Call.logDebugC msg)).st = s
       ∧ (run n s clk (Call.logDebugC msg)).val = none) := by
  induction n with
  | zero => intro s clk msg lvl nm _ _ _; simp
  | succ n ih =>
    intro s clk msg lvl nm hA hL hH
    refine ⟨?_, ?_, ?_⟩
    · have hc := (ih s clk msg lvl "arcpy" hA hL hH).2.1
      rw [run_step_logToArc, if_pos hA, seq_none _ hc.2]
      exact hc
    · have hd := (ih s clk ("utilities::checkModuleImport::Start::" ++ nm) lvl nm hA hL hH).2.2
      rw [run_step_checkModule, seq_none _ hd.2]
      exact hd
    · cases n with
      | zero =>
        rw [run_step_logDebug]
        simp [Out.seq]
      | succ m =>
        have ha := (ih s clk msg "DEBUG" nm hA hL hH).1
        rw [run_step_logDebug, run_getLogger_succ hH, seq_mk_some]
        simp only [isEnabledFor_of_debug hL, if_true, run_getLogger_succ hH, seq_mk_some,
          List.nil_append]
        exact ⟨ha.1, ha.2⟩

/-- In the same degenerate configuration every permitted leveled call
diverges; `logInfo` is the instance the claims use. -/
theorem run_bad_logInfo (n : Nat) (s : PyState) (clk : Clock) (msg : String)
    (hA : s.arcFlag = true) (hL : s.rootLevel = Level.debug) (hH : s.hasLogger = true) :
    (run n s clk (Call.logInfoC msg)).val = none := by
  cases n with
  | zero => simp
  | succ m =>
    cases m with
    | zero =>
      rw [run_step_logInfo]
      simp [Out.seq]
    | succ k =>
      have ha := (run_bad (k + 1) s clk msg "INFO" "x" hA hL hH).1
      rw [run_step_logInfo, run_getLogger_succ hH, seq_mk_some]
      simp only [isEnabledFor_of_debug hL, if_true, run_getLogger_succ hH, seq_mk_some,
        List.nil_append]
      exact ha.2

/-- Python `logException` also diverges there: its two host forwards enter the same
cycle. -/
theorem run_bad_logException (n : Nat) (s : PyState) (clk : Clock) (exc msg : String)
    (hA : s.arcFlag = true) (hL : s.rootLevel = Level.debug) (hH : s.hasLogger = true) :
    (run n s clk (Call.logExceptionC exc msg)).val = none := by
  cases n with
  | zero => simp
  | succ m =>
    cases m with
    | zero =>
      rw [run_step_logException]
      simp [Out.seq]
    | succ k =>
      have ha := (run_bad (k + 1) s clk msg "FATAL" "x" hA hL hH).1
      rw [run_step_logException, run_getLogger_succ hH, seq_mk_some, seq_mk_some,
        seq_none _ ha.2]
      simp [ha.2]

end EsriNlUtils

namespace EsriNlUtils

/-- With a logger present and threshold above DEBUG, the two `logDebug` trace
lines inside `checkModuleImport` are silent no-ops. -/
theorem run_logDebug_quiet (n : Nat) (s : PyState) (clk : Clock) (msg : String)
    (hH : s.hasLogger = true) (hD : s.rootLevel ≠ Level.debug) :
    run (n + 2) s clk (Call.logDebugC msg) = ⟨s, [], some true⟩ := by
  rw [run_step_logDebug, run_getLogger_succ hH, seq_mk_some]
  simp [isEnabledFor_debug_false hD]

/-- With a logger present and threshold above DEBUG, `checkModuleImport`
returns the membership test and changes nothing — and since `dir()` inside
the function never contains the probed module name unless that name is one of
the two local variables, the result is `sys.modules`-membership ANDed with
that constant test. -/
theorem run_checkModule_quiet (n : Nat) (s : PyState) (clk : Clock) (nm : String)
    (hH : s.hasLogger = true) (hD : s.rootLevel ≠ Level.debug) :
    run (n + 3) s clk (Call.checkModule nm) =
      ⟨s, [], some (s.sysModules.contains nm && localNames.contains nm)⟩ := by
  rw [run_step_checkModule, run_logDebug_quiet n s clk _ hH hD, seq_mk_some,
    run_logDebug_quiet n s clk _ hH hD, seq_mk_some]
  simp

/-- Sequencing preserves a state predicate preserved by both parts. -/
theorem seq_preserves (P : PyState → Prop) {r : Out} {k : PyState → Bool → Out}
    (hr : P r.st) (hk : ∀ s' b, P s' → P ((k s' b).st)) : P ((r.seq k).st) := by
  cases hv : r.val with
  | none => simpa [Out.seq, hv] using hr
  | some b =>
    have := hk r.st b hr
    simpa [Out.seq, hv] using this

theorem KeepsHandlers.chain {s t u : PyState} (h1 : KeepsHandlers s t)
    (h2 : KeepsHandlers t u) : KeepsHandlers s u :=
  ⟨h2.1.trans h1.1, h2.2⟩

/-- No call other than `configureLogging` (reached here only through
`getLogger` when the handle is unset) touches the handler list or clears the
handle: with a logger present, every non-configure call leaves
`rootHandlers` unchanged and the handle set, whether it returns or dies with
`RecursionError`. -/
theorem run_preserves (n : Nat) : ∀ (s : PyState) (clk : Clock) (c : Call),
    s.hasLogger = true → (∀ p b l, c ≠ Call.configureC p b l) →
    KeepsHandlers s (run n s clk c).st := by
  induction n with
  | zero => intro s clk c h _; exact ⟨rfl, h⟩
  | succ n ih =>
    intro s clk c h hc
    cases c with
    | configureC p b l => exact absurd rfl (hc p b l)
    | getLoggerC =>
      rw [run_getLogger_succ h]
      exact ⟨rfl, h⟩
    | logExceptionC exc msg =>
      rw [run_step_logException]
      refine seq_preserves (KeepsHandlers s)
        (ih s clk _ h (fun _ _ _ hh => Call.noConfusion hh)) ?_
      intro s1 b1 hp1
      refine seq_preserves (KeepsHandlers s) hp1 ?_
      intro s2 b2 hp2
      refine seq_preserves (KeepsHandlers s)
        (hp2.chain (ih s2 clk (.logToArc msg "FATAL") hp2.2
          (fun _ _ _ hh => Call.noConfusion hh))) ?_
      intro s3 b3 hp3
      exact hp3.chain (ih s3 clk (.logToArc exc "FATAL") hp3.2
        (fun _ _ _ hh => Call.noConfusion hh))
    | logErrorC msg =>
      rw [run_step_logError]
      refine seq_preserves (KeepsHandlers s)
        (ih s clk _ h (fun _ _ _ hh => Call.noConfusion hh)) ?_
      intro s1 b1 hp1
      split
      · refine seq_preserves (KeepsHandlers s)
          (hp1.chain (ih s1 clk .getLoggerC hp1.2
            (fun _ _ _ hh => Call.noConfusion hh))) ?_
        intro s2 b2 hp2
        refine seq_preserves (KeepsHandlers s) hp2 ?_
        intro s3 b3 hp3
        exact hp3.chain (ih s3 clk (.logToArc msg "ERROR") hp3.2
          (fun _ _ _ hh => Call.noConfusion hh))
      · exact hp1
    | logWarningC msg =>
      rw [run_step_logWarning]
      refine seq_preserves (KeepsHandlers s)
        (ih s clk _ h (fun _ _ _ hh => Call.noConfusion hh)) ?_
      intro s1 b1 hp1
      split
      · refine seq_preserves (KeepsHandlers s)
          (hp1.chain (ih s1 clk .getLoggerC hp1.2
            (fun _ _ _ hh => Call.noConfusion hh))) ?_
        intro s2 b2 hp2
        refine seq_preserves (KeepsHandlers s) hp2 ?_
        intro s3 b3 hp3
        exact hp3.chain (ih s3 clk (.logToArc msg "WARN") hp3.2
          (fun _ _ _ hh => Call.noConfusion hh))
      · exact hp1
    | logInfoC msg =>
      rw [run_step_logInfo]
      refine seq_preserves (KeepsHandlers s)
        (ih s clk _ h (fun _ _ _ hh => Call.noConfusion hh)) ?_
      intro s1 b1 hp1
      split
      · refine seq_preserves (KeepsHandlers s)
          (hp1.chain (ih s1 clk .getLoggerC hp1.2
            (fun _ _ _ hh => Call.noConfusion hh))) ?_
        intro s2 b2 hp2
        refine seq_preserves (KeepsHandlers s) hp2 ?_
        intro s3 b3 hp3
        exact hp3.chain (ih s3 clk (.logToArc msg "INFO") hp3.2
          (fun _ _ _ hh => Call.noConfusion hh))
      · exact hp1
    | logDebugC msg =>
      rw [run_step_logDebug]
      refine seq_preserves (KeepsHandlers s)
        (ih s clk _ h (fun _ _ _ hh => Call.noConfusion hh)) ?_
      intro s1 b1 hp1
      split
      · refine seq_preserves (KeepsHandlers s)
          (hp1.chain (ih s1 clk .getLoggerC hp1.2
            (fun _ _ _ hh => Call.noConfusion hh))) ?_
        intro s2 b2 hp2
        refine seq_preserves (KeepsHandlers s) hp2 ?_
        intro s3 b3 hp3
        exact hp3.chain (ih s3 clk (.logToArc msg "DEBUG") hp3.2
          (fun _ _ _ hh => Call.noConfusion hh))
      · exact hp1
    | logToArc msg lvl =>
      rw [run_step_logToArc]
      split
      · refine seq_preserves (KeepsHandlers s)
          (ih s clk _ h (fun _ _ _ hh => Call.noConfusion hh)) ?_
        intro s1 b1 hp1
        split
        · exact hp1
        · exact ⟨hp1.1, hp1.2⟩
      · exact ⟨rfl, h⟩
    | checkModule nm =>
      rw [run_step_checkModule]
      refine seq_preserves (KeepsHandlers s)
        (ih s clk _ h (fun _ _ _ hh => Call.noConfusion hh)) ?_
      intro s1 b1 hp1
      refine seq_preserves (KeepsHandlers s)
        (hp1.chain (ih s1 clk _ hp1.2 (fun _ _ _ hh => Call.noConfusion hh))) ?_
      intro s2 b2 hp2
      exact hp2

end EsriNlUtils

namespace EsriNlUtils

/-! ## Digit-count and division lemmas for the date helpers -/

theorem digitsLenGo_lower : ∀ (f n k : Nat), n < f → 10 ^ k ≤ n → k + 1 ≤ digitsLenGo f n := by
  intro f
  induction f with
  | zero => intro n k h hp; omega
  | succ f ih =>
    intro n k hf hp
    simp only [digitsLenGo]
    split
    · rename_i h10
      cases k with
      | zero => omega
      | succ k2 =>
        exfalso
        have hone : (1 : Nat) ≤ 10 ^ k2 := Nat.one_le_pow _ _ (by omega)
        have h1 : 10 ≤ 10 ^ (k2 + 1) := by
          calc (10 : Nat) = 10 * 1 := by omega
          _ ≤ 10 * 10 ^ k2 := Nat.mul_le_mul_left 10 hone
          _ = 10 ^ (k2 + 1) := by rw [Nat.pow_succ, Nat.mul_comm]
        omega
    · rename_i h10
      cases k with
      | zero => omega
      | succ k2 =>
        have hd : 10 ^ k2 ≤ n / 10 := by
          rw [Nat.le_div_iff_mul_le (by omega)]
          calc 10 ^ k2 * 10 = 10 ^ (k2 + 1) := (Nat.pow_succ 10 k2).symm
          _ ≤ n := hp
        have hlt : n / 10 < f := by
          have h1 : n / 10 < n := Nat.div_lt_self (by omega) (by omega)
          omega
        have := ih (n / 10) k2 hlt hd
        omega

theorem digitsLenGo_upper : ∀ (f n k : Nat), n < f → n < 10 ^ (k + 1) → digitsLenGo f n ≤ k + 1 := by
  intro f
  induction f with
  | zero => intro n k h hp; omega
  | succ f ih =>
    intro n k hf hp
    simp only [digitsLenGo]
    split
    · omega
    · rename_i h10
      cases k with
      | zero =>
        exfalso
        norm_num at hp
        omega
      | succ k2 =>
        have hd : n / 10 < 10 ^ (k2 + 1) := by
          rw [Nat.div_lt_iff_lt_mul (by omega)]
          calc n < 10 ^ (k2 + 2) := hp
          _ = 10 ^ (k2 + 1) * 10 := Nat.pow_succ 10 (k2 + 1)
        have hlt : n / 10 < f := by
          have h1 : n / 10 < n := Nat.div_lt_self (by omega) (by omega)
          omega
        have := ih (n / 10) k2 hlt hd
        omega

theorem digitsLen_lower {n k : Nat} (h : 10 ^ k ≤ n) : k + 1 ≤ digitsLen n :=
  digitsLenGo_lower (n + 1) n k (Nat.lt_succ_self n) h

theorem digitsLen_upper {n k : Nat} (h : n < 10 ^ (k + 1)) : digitsLen n ≤ k + 1 :=
  digitsLenGo_upper (n + 1) n k (Nat.lt_succ_self n) h

theorem pyStrLen_nonneg {i : Int} (h : 0 ≤ i) : pyStrLen i = digitsLen i.natAbs := by
  simp only [pyStrLen]
  rw [if_neg (by omega)]

/-- Any integer in `[10^12, 10^13)` prints with 13 characters. -/
theorem pyStrLen_13 {v : Int} (h1 : 1000000000000 ≤ v) (h2 : v < 10000000000000) :
    pyStrLen v = 13 := by
  rw [pyStrLen_nonneg (by omega)]
  have ha : (10 : Nat) ^ 12 ≤ v.natAbs := by
    have he : (10 : Nat) ^ 12 = 1000000000000 := by norm_num
    omega
  have hb : v.natAbs < (10 : Nat) ^ 13 := by
    have he : (10 : Nat) ^ 13 = 10000000000000 := by norm_num
    omega
  have l1 := @digitsLen_lower v.natAbs 12 ha
  have l2 := @digitsLen_upper v.natAbs 12 hb
  omega

/-- Dividing numerator and denominator by 1000: the fused form of
`timestamp /= 1000` followed by `fromtimestamp`'s day floor. -/
theorem fdiv_thousand (a : Int) : Int.fdiv (1000 * a) 86400000 = Int.fdiv a 86400 := by
  rw [Int.fdiv_eq_ediv _ (by norm_num), Int.fdiv_eq_ediv _ (by norm_num),
    (by norm_num : (86400000 : Int) = 1000 * 86400)]
  exact Int.mul_ediv_mul_of_pos a 86400 (by norm_num)

/-- C7: `dateStringToTimestamp("2022/01/12", "%Y/%m/%d", True)` round-trips
through `timestampToDateString` with the same format back to `"2022/01/12"`,
for every local UTC offset of at most 14 hours (50400 seconds) either way —
in particular for whatever timezone the host runs in. -/
theorem dateString_roundTrip (tz : Int) (h : tz.natAbs ≤ 50400) :
    ∃ ts, dateStringToTimestamp "2022/01/12" true tz = some ts
      ∧ timestampToDateString ts tz = "2022/01/12" := by
  refine ⟨(1641945600 - tz) * 1000, ?_, ?_⟩
  · have hp : strptimeYMD "2022/01/12" = some (2022, 1, 12) := by decide
    have hd : daysFromCivil 2022 1 12 = 19004 := by decide
    simp [dateStringToTimestamp, hp, hd]
  · have hlen : pyStrLen ((1641945600 - tz) * 1000) = 13 := by
      have hb : -50400 ≤ tz ∧ tz ≤ 50400 := by omega
      exact pyStrLen_13 (by nlinarith [hb.1, hb.2]) (by nlinarith [hb.1, hb.2])
    simp only [timestampToDateString, hlen]
    rw [if_pos (by omega)]
    rw [(by ring : (1641945600 - tz) * 1000 + 1000 * tz = (1641945600000 : Int))]
    decide

/-- C8 counterexample: `-1234567890` has exactly 10 digits, yet
`timestampToDateString` divides it by 1000 (the string-length heuristic counts
the minus sign), so the result is not the at-most-10-digits-means-seconds
interpretation the claim asserts: the code answers `"1969/12/17"` while the
seconds reading gives `"1930/11/18"`. -/
theorem timestampToDateString_negative_counterexample :
    digitsLen (Int.natAbs (-1234567890)) = 10
    ∧ 10 < pyStrLen (-1234567890)
    ∧ timestampToDateString (-1234567890) 0 = "1969/12/17"
    ∧ strftimeYMD (civilFromDays (Int.fdiv ((-1234567890 : Int) + 0) 86400)) = "1930/11/18"
    ∧ timestampToDateString (-1234567890) 0
        ≠ strftimeYMD (civilFromDays (Int.fdiv ((-1234567890 : Int) + 0) 86400)) := by
  refine ⟨by decide, by decide, by decide, by decide, by decide⟩

/-- C8 (amended): for nonnegative timestamps the decimal-string-length
heuristic coincides with the digit count — more than 10 digits means the
input is taken as milliseconds (divide by 1000 before conversion), at most 10
digits means seconds — and the two particular inputs `1652800000000` (13
digits, milliseconds) and `1652800000` (10 digits, seconds) yield the same
calendar date in every timezone offset. -/
theorem timestampToDateString_heuristic (ts tz : Int) (hts : 0 ≤ ts) :
    (10 < digitsLen ts.natAbs →
       timestampToDateString ts tz
         = strftimeYMD (civilFromDays (Int.fdiv (ts + 1000 * tz) 86400000)))
    ∧ (digitsLen ts.natAbs ≤ 10 →
       timestampToDateString ts tz
         = strftimeYMD (civilFromDays (Int.fdiv (ts + tz) 86400)))
    ∧ timestampToDateString 1652800000000 tz = timestampToDateString 1652800000 tz := by
  refine ⟨?_, ?_, ?_⟩
  · intro hd
    simp only [timestampToDateString, pyStrLen_nonneg hts]
    rw [if_pos hd]
  · intro hd
    simp only [timestampToDateString, pyStrLen_nonneg hts]
    rw [if_neg (by omega)]
  · have h13 : pyStrLen 1652800000000 = 13 := by decide
    have h10 : pyStrLen 1652800000 = 10 := by decide
    simp only [timestampToDateString, h13, h10]
    rw [if_pos (by omega), if_neg (by omega)]
    rw [(by ring : (1652800000000 : Int) + 1000 * tz = 1000 * (1652800000 + tz)),
      fdiv_thousand]

end EsriNlUtils

namespace EsriNlUtils

/-- With a logger present, threshold above DEBUG and forwarding on,
`logToArcGIS` returns: the broken module check answers false, the `import
arcpy` statement runs, and the line goes to exactly one bucket. -/
theorem run_logToArc_quiet (n : Nat) (s : PyState) (clk : Clock) (msg lvl : String)
    (hH : s.hasLogger = true) (hD : s.rootLevel ≠ Level.debug) (hA : s.arcFlag = true) :
    run (n + 4) s clk (Call.logToArc msg lvl) =
      ⟨{ s with sysModules :=
           if s.sysModules.contains "arcpy" then s.sysModules
           else s.sysModules ++ ["arcpy"] },
        [Event.arcpyLoad,
         if lvl = "ERROR" ∨ lvl = "FATAL" then Event.hostError (fullLine clk lvl msg)
         else if lvl = "WARN" then Event.hostWarning (fullLine clk lvl msg)
         else Event.hostMessage (fullLine clk lvl msg)],
        some true⟩ := by
  rw [show n + 4 = (n + 3) + 1 from rfl, run_step_logToArc, if_pos hA,
    run_checkModule_quiet n s clk "arcpy" hH hD, seq_mk_some]
  have hloc : localNames.contains "arcpy" = false := by decide
  have hmem : "arcpy" ∉ localNames := by decide
  simp [hloc, hmem]

/-- Python `configureLogging(None)` (the `getLogger` auto-configuration) appends
exactly one console sink at level DEBUG. -/
theorem run_configure_default (n : Nat) (u : PyState) (clk : Clock) :
    (run (n + 3) u clk (Call.configureC none false Level.debug)).st.rootHandlers
      = u.rootHandlers ++ [Handler.stream Level.debug] := by
  rw [show n + 3 = (n + 2) + 1 from rfl, run_step_configure]
  exact (run_preserves (n + 2) _ clk _ rfl (fun _ _ _ hh => Call.noConfusion hh)).1

/-- Python `getLogger` on a cleared handle with an empty handler list yields the root
logger carrying exactly the one console sink the auto-configuration just
attached. -/
theorem run_getLogger_fresh (n : Nat) (t : PyState) (clk : Clock)
    (h1 : t.rootHandlers = []) (h2 : t.hasLogger = false) :
    (run (n + 4) t clk Call.getLoggerC).st.rootHandlers = [Handler.stream Level.debug] := by
  rw [show n + 4 = (n + 3) + 1 from rfl, run_step_getLogger, h2]
  simp only [Bool.false_eq_true, if_false]
  rw [run_configure_default n t clk, h1]
  simp

/-- The handlers attached by a `configureLogging` call: the optional file sink
followed by a console sink exactly when not forwarding to the host; the prior
handlers are untouched (they persist on the root logger). -/
theorem run_configure_handlers (n : Nat) (u : PyState) (clk : Clock)
    (path : Option String) (toArc : Bool) (lvl : Level) :
    (run (n + 1) u clk (Call.configureC path toArc lvl)).st.rootHandlers
      = u.rootHandlers
        ++ (match path with
            | some p =>
              if p = "" then [] else [Handler.file (p.replace "[date]" clk.nowFile) lvl]
            | none => [])
        ++ (if toArc then [] else [Handler.stream lvl]) := by
  rw [run_step_configure]
  cases path with
  | none =>
    cases toArc with
    | false =>
      refine ((run_preserves n _ clk _ rfl (fun _ _ _ hh => Call.noConfusion hh)).1).trans ?_
      simp
    | true =>
      refine ((run_preserves n _ clk _ rfl (fun _ _ _ hh => Call.noConfusion hh)).1).trans ?_
      simp
  | some p =>
    by_cases hp : p = ""
    · simp only [if_pos hp]
      cases toArc with
      | false =>
        refine ((run_preserves n _ clk _ rfl (fun _ _ _ hh => Call.noConfusion hh)).1).trans ?_
        simp [hp]
      | true =>
        refine ((run_preserves n _ clk _ rfl (fun _ _ _ hh => Call.noConfusion hh)).1).trans ?_
        simp [hp]
    · simp only [if_neg hp]
      cases toArc with
      | false =>
        refine ((run_preserves n _ clk _ rfl (fun _ _ _ hh => Call.noConfusion hh)).1).trans ?_
        simp [hp]
      | true =>
        refine ((run_preserves n _ clk _ rfl (fun _ _ _ hh => Call.noConfusion hh)).1).trans ?_
        simp [hp]

/-! ## Claim theorems -/

/-- C1: for levels L and thresholds T, a leveled log call emits to the backend
and forwards to the host path iff L ≥ T, and is a silent no-op when L < T —
except that the code breaks the claim at T = DEBUG with forwarding on, where
every permitted call recurses without bound (RecursionError) instead of
emitting and forwarding: the first conjunct evaluates the code at that failing
input for every recursion depth; the remaining conjuncts confirm the claimed
filtering at threshold INFO (logDebug dropped silently, logError emitted and
forwarded). -/
theorem logCall_threshold_filtering :
    (∀ n, (logInfo n sBad clk0 "x").val = none)
    ∧ logDebug 9 sInfoT clk0 "x" = ⟨sInfoT, [], some true⟩
    ∧ (logError 9 sInfoT clk0 "x").ev =
        [Event.backend Level.error "x", Event.arcpyLoad,
         Event.hostError "20220101-00:00:00 - ERROR - x"] :=
  ⟨fun n => run_bad_logInfo n sBad clk0 "x" rfl rfl rfl, by decide, by decide⟩

/-- C2: `logException` forwards the message and then the exception as two
FATAL host entries regardless of the configured threshold — confirmed at the
most restrictive threshold ERROR (second and third conjuncts), but broken at
threshold DEBUG with forwarding on, where the call recurses without bound and
forwards nothing (first conjunct, every recursion depth). -/
theorem logException_always_forwards :
    (∀ n, (logException n sBad clk0 "boom" "msg").val = none)
    ∧ hostCalls (logException 9 sErrT clk0 "boom" "msg").ev =
        [Event.hostError "20220101-00:00:00 - FATAL - msg",
         Event.hostError "20220101-00:00:00 - FATAL - boom"]
    ∧ Event.backend Level.error "msg" ∈ (logException 9 sErrT clk0 "boom" "msg").ev :=
  ⟨fun n => run_bad_logException n sBad clk0 "boom" "msg" rfl rfl rfl,
   by decide, by decide⟩

/-- C3 counterexample: with forwarding enabled, a call tagged with the level
string `"WARNING"` is routed to the message bucket (`AddMessage`), not to the
warning bucket the claim names — the code only recognises `"WARN"`. -/
theorem logToArcGIS_warning_counterexample :
    hostCalls (logToArcGIS 9 sErrT clk0 "hello" "WARNING").ev =
      [Event.hostMessage "20220101-00:00:00 - WARNING - hello"]
    ∧ Event.hostWarning "20220101-00:00:00 - WARNING - hello" ∉
        (logToArcGIS 9 sErrT clk0 "hello" "WARNING").ev :=
  ⟨by decide, by decide⟩

/-- C3 (amended): when forwarding is enabled (and the logger threshold is
above DEBUG, so that the call terminates at all — see C1), `logToArcGIS`
routes the formatted line to exactly one of the three host buckets: the error
bucket for `"ERROR"`/`"FATAL"`, the warning bucket for `"WARN"` (the tag
`logWarning` emits; `"WARNING"` itself is not recognised), and the message
bucket for everything else; when the forwarding flag is false the call does
nothing. -/
theorem logToArcGIS_bucket_routing (s : PyState) (clk : Clock) (msg lvl : String) (n : Nat)
    (hH : s.hasLogger = true) (hD : s.rootLevel ≠ Level.debug) :
    (s.arcFlag = true →
      ∃ e, hostCalls (logToArcGIS (n + 4) s clk msg lvl).ev = [e]
        ∧ ((lvl = "ERROR" ∨ lvl = "FATAL") → e = Event.hostError (fullLine clk lvl msg))
        ∧ (lvl = "WARN" → e = Event.hostWarning (fullLine clk lvl msg))
        ∧ (¬(lvl = "ERROR" ∨ lvl = "FATAL") → lvl ≠ "WARN" →
             e = Event.hostMessage (fullLine clk lvl msg)))
    ∧ (s.arcFlag = false → logToArcGIS (n + 4) s clk msg lvl = ⟨s, [], some true⟩) := by
  constructor
  · intro hA
    refine ⟨if lvl = "ERROR" ∨ lvl = "FATAL" then Event.hostError (fullLine clk lvl msg)
            else if lvl = "WARN" then Event.hostWarning (fullLine clk lvl msg)
            else Event.hostMessage (fullLine clk lvl msg), ?_, ?_, ?_, ?_⟩
    · rw [logToArcGIS, run_logToArc_quiet n s clk msg lvl hH hD hA]
      have hbucket :
          Event.isHost
            (if lvl = "ERROR" ∨ lvl = "FATAL" then Event.hostError (fullLine clk lvl msg)
             else if lvl = "WARN" then Event.hostWarning (fullLine clk lvl msg)
             else Event.hostMessage (fullLine clk lvl msg)) = true := by
        split
        · rfl
        · split <;> rfl
      have harc : Event.isHost Event.arcpyLoad = false := rfl
      simp [hostCalls, harc, hbucket]
    · intro h1
      rw [if_pos h1]
    · intro h2
      subst h2
      rw [if_neg (by decide), if_pos rfl]
    · intro h1 h2
      rw [if_neg h1, if_neg h2]
  · intro hA
    rw [logToArcGIS, show n + 4 = (n + 3) + 1 from rfl, run_step_logToArc, hA]
    simp only [Bool.false_eq_true, if_false]

/-- C3 witness: at a concrete forwarding state the `"WARN"` tag reaches the
warning bucket. -/
theorem logToArcGIS_bucket_routing_witness :
    ∃ e, hostCalls (logToArcGIS (0 + 4) sErrT clk0 "w" "WARN").ev = [e]
      ∧ (("WARN" : String) = "ERROR" ∨ ("WARN" : String) = "FATAL" →
           e = Event.hostError (fullLine clk0 "WARN" "w"))
      ∧ (("WARN" : String) = "WARN" → e = Event.hostWarning (fullLine clk0 "WARN" "w"))
      ∧ (¬(("WARN" : String) = "ERROR" ∨ ("WARN" : String) = "FATAL") →
           ("WARN" : String) ≠ "WARN" → e = Event.hostMessage (fullLine clk0 "WARN" "w")) :=
  (logToArcGIS_bucket_routing sErrT clk0 "w" "WARN" 0 rfl (by decide)).1 rfl

/-- C4: `resetLogging` hands back every attached sink in attachment order with
the handler list emptied and the handle cleared; it is a no-op when no logger
exists; and reset followed by `getLogger` yields a logger whose only sink is
the console sink the auto-configuration freshly attaches — zero pre-existing
sinks (the third part assumes the module invariant that a cleared handle goes
with an empty handler list, which both reachable cleared states satisfy). -/
theorem resetLogging_spec (s : PyState) (clk : Clock) (n : Nat) :
    (s.hasLogger = true →
       (resetLogging s).2 = s.rootHandlers
         ∧ (resetLogging s).1.rootHandlers = []
         ∧ (resetLogging s).1.hasLogger = false)
    ∧ (s.hasLogger = false → resetLogging s = (s, []))
    ∧ ((s.hasLogger = false → s.rootHandlers = []) →
       (getLogger (n + 4) (resetLogging s).1 clk).st.rootHandlers
         = [Handler.stream Level.debug]) := by
  refine ⟨?_, ?_, ?_⟩
  · intro h
    simp [resetLogging, h]
  · intro h
    simp [resetLogging, h]
  · intro hinv
    have h1 : (resetLogging s).1.rootHandlers = [] := by
      by_cases h : s.hasLogger = true
      · simp [resetLogging, h]
      · have hb : s.hasLogger = false := by simpa using h
        simp [resetLogging, hb, hinv hb]
    have h2 : (resetLogging s).1.hasLogger = false := by
      by_cases h : s.hasLogger = true
      · simp [resetLogging, h]
      · have hb : s.hasLogger = false := by simpa using h
        simp [resetLogging, hb]
    exact run_getLogger_fresh n _ clk h1 h2

/-- C4 witness: resetting a logger that holds a file sink closes it, and the
follow-up `getLogger` carries only the fresh console sink; resetting with no
logger is a no-op. -/
theorem resetLogging_spec_witness :
    ((resetLogging sWithFile).2 = sWithFile.rootHandlers
       ∧ (resetLogging sWithFile).1.rootHandlers = []
       ∧ (resetLogging sWithFile).1.hasLogger = false)
    ∧ (getLogger (0 + 4) (resetLogging sWithFile).1 clk0).st.rootHandlers
        = [Handler.stream Level.debug]
    ∧ resetLogging sNoLogger = (sNoLogger, []) :=
  ⟨(resetLogging_spec sWithFile clk0 0).1 rfl,
   (resetLogging_spec sWithFile clk0 0).2.2 (by decide),
   (resetLogging_spec sNoLogger clk0 0).2.1 rfl⟩

/-- C5: the sinks a `configureLogging` call attaches (the suffix it appends to
the handler list) contain no console sink when `forwardToHost` is true, and do
contain the console sink when it is false. -/
theorem configureLogging_console_sink (s : PyState) (clk : Clock)
    (path : Option String) (lvl : Level) (n : Nat) :
    (((configureLogging (n + 4) s clk path true lvl).st.rootHandlers.drop
        s.rootHandlers.length).all fun h => !h.isStream) = true
    ∧ ((configureLogging (n + 4) s clk path false lvl).st.rootHandlers.drop
        s.rootHandlers.length).contains (Handler.stream lvl) = true := by
  constructor
  · rw [configureLogging, show n + 4 = (n + 3) + 1 from rfl,
      run_configure_handlers (n + 3) s clk path true lvl, List.append_assoc,
      List.drop_left]
    cases path with
    | none => simp
    | some p =>
      by_cases hp : p = "" <;> simp [hp, Handler.isStream]
  · rw [configureLogging, show n + 4 = (n + 3) + 1 from rfl,
      run_configure_handlers (n + 3) s clk path false lvl, List.append_assoc,
      List.drop_left]
    simp

/-- C6: `checkModuleImport("arcpy")` answers false no matter what
`sys.modules` contains — `dir()` inside the function lists only the local
variables `moduleImported` and `moduleName`, never `"arcpy"` — so the
`import arcpy` statement re-runs on every forwarded message instead of being
skipped on calls after the first.  (Threshold INFO here keeps the call's own
debug tracing quiet; at DEBUG it would not even return, see C1.) -/
theorem checkModuleImport_never_true (mods : List String) (n : Nat) :
    (checkModuleImport (n + 3) ⟨[], Level.info, true, true, mods⟩ clk0 "arcpy").val
      = some false := by
  rw [checkModuleImport, run_checkModule_quiet n _ clk0 "arcpy" rfl (by simp)]
  have hloc : localNames.contains "arcpy" = false := by decide
  have hmem : "arcpy" ∉ localNames := by decide
  simp [hloc, hmem]

/-- C7: `dateStringToTimestamp("2022/01/12", "%Y/%m/%d", True)` round-trips
through `timestampToDateString` back to `"2022/01/12"` — the theorem
`dateString_roundTrip` above states this for every local offset up to ±14 h;
this is its concrete instance at offset zero. -/
theorem dateString_roundTrip_witness :
    Int.natAbs 0 ≤ 50400
    ∧ ∃ ts, dateStringToTimestamp "2022/01/12" true 0 = some ts
        ∧ timestampToDateString ts 0 = "2022/01/12" :=
  ⟨by decide, dateString_roundTrip 0 (by decide)⟩

/-- C8 witness: the amended heuristic at the claim's concrete inputs, offset
two hours. -/
theorem timestampToDateString_heuristic_witness :
    timestampToDateString 1652800000000 7200
        = strftimeYMD (civilFromDays (Int.fdiv ((1652800000000 : Int) + 1000 * 7200) 86400000))
    ∧ timestampToDateString 1652800000000 7200 = timestampToDateString 1652800000 7200 :=
  ⟨(timestampToDateString_heuristic 1652800000000 7200 (by decide)).1 (by decide),
   (timestampToDateString_heuristic 1652800000000 7200 (by decide)).2.2⟩

/-- C9: whenever the session acquisition inside `getGIS`'s `try` block fails,
the exception is caught, logged through `logException` together with the
fixed explanatory message, and the function returns the `None` sentinel
(total by construction: nothing propagates). -/
theorem getGIS_catches (u : Option String) (env : GisEnv) (ex : String)
    (h : env.outcome = Except.error ex) :
    (getGIS u env).1 = none
      ∧ GEvent.gException ex getGISfailMessage ∈ (getGIS u env).2 := by
  constructor
  · simp [getGIS, h]
  · simp [getGIS, h]

/-- C9 witness: a concrete failing acquisition. -/
theorem getGIS_catches_witness :
    (getGIS none gisEnvFail).1 = none
      ∧ GEvent.gException "boom" getGISfailMessage ∈ (getGIS none gisEnvFail).2 :=
  getGIS_catches none gisEnvFail "boom" rfl

/-- C10: `sendRequest` issues a POST for every value of `type` other than the
exact string `"GET"`, and a GET only for `"GET"`. -/
theorem sendRequest_post_unless_GET (t : String) (h : t ≠ "GET") :
    sendRequest t = HttpMethod.post ∧ sendRequest "GET" = HttpMethod.get := by
  constructor
  · simp [sendRequest, h]
  · simp [sendRequest]

/-- C10 witness: even the lowercase `"get"` issues a POST. -/
theorem sendRequest_post_unless_GET_witness :
    sendRequest "get" = HttpMethod.post ∧ sendRequest "GET" = HttpMethod.get :=
  sendRequest_post_unless_GET "get" (by decide)

end EsriNlUtils
